import Mathlib

/-!
Verification of the spa-booking call-session bridge (src/backend/app.py)
against its natural-language specification.

The definitions below are a shallow embedding of the Python source.
External effects are made explicit:
  * the booking store (Supabase RPC) is an environment `Env.rpc` mapping a
    call to the optional JSON data the source reads from `result.data`
    (`none` models falsy data, i.e. an empty or missing payload);
  * the two WebSocket directions of `media_stream_handler` become step
    functions over explicit state, folded over the list of received events;
  * Python truthiness, `dict.get`, f-string rendering of `None`, and
    `str.split` are embedded by small helper functions.
-/

namespace SpaBooking

/-! ### Python-semantics helpers -/

/-- Truthiness of an optional string: `None` and the empty string are falsy. -/
def pyTruthyS (o : Option String) : Bool :=
  match o with
  | none => false
  | some s => s.length != 0

/-- Rendering of an optional string inside a Python f-string:
`None` prints as the text `None`. -/
def pyStrOpt (o : Option String) : String :=
  match o with
  | none => "None"
  | some s => s

/-- Rendering of an optional integer inside a Python f-string. -/
def pyStrNatOpt (o : Option Nat) : String :=
  match o with
  | none => "None"
  | some n => toString n

/-- Python `f"{n:02d}"` for a natural number. -/
def fmt2 (n : Nat) : String :=
  if n < 10 then "0" ++ toString n else toString n

/-- Helper for `pySplitColon`: accumulates the current field (in reverse). -/
def splitColonAux : List Char → List Char → List (List Char)
  | [], acc => [acc.reverse]
  | c :: cs, acc =>
    if c = ':' then acc.reverse :: splitColonAux cs [] else splitColonAux cs (c :: acc)

/-- Python `s.split(':')` (with an explicit separator `""` never yields `[]`). -/
def pySplitColon (s : String) : List String :=
  (splitColonAux s.data []).map String.mk

/-- Value of a decimal digit character. -/
def digitVal? (c : Char) : Option Nat :=
  if c.isDigit then some (c.toNat - 48) else none

/-- Python `int(s)` restricted to plain decimal digit strings
(the only shapes the bridge feeds it); anything else fails. -/
def pyNat? (s : String) : Option Nat :=
  s.data.foldl
    (fun acc c =>
      match acc, digitVal? c with
      | some n, some d => some (n * 10 + d)
      | _, _ => none)
    (if s.data.isEmpty then none else some 0)

/-- Lookup in a JSON-object argument map (Python `dict.get`). -/
def argsGet (args : List (String × String)) (k : String) : Option String :=
  (args.find? (fun p => p.1 == k)).map Prod.snd

/-! ### Helper functions from src/backend/app.py -/

/-- `format_time_for_db` (app.py lines 263-267): convert `HH:MM` to `HH:MM:SS`.
The argument is optional because the caller passes `arguments.get(...)`,
which may be `None`; a falsy or non-5-character value is returned unchanged. -/
def format_time_for_db (timeStr : Option String) : Option String :=
  match timeStr with
  | none => none
  | some t => if t.length != 0 && t.length == 5 then some (t ++ ":00") else some t

/-- `calculate_end_time` (app.py lines 269-276).  `sessionDurationHours` is
`Config.SESSION_DURATION_HOURS` (environment-derived, default 2).  The bare
`except` clause of the source maps every parse failure, including a `None`
argument, to `"12:00:00"`.  Note the source adds the duration to the hour with
no reduction modulo 24. -/
def calculate_end_time (sessionDurationHours : Nat) (startTime : Option String) : String :=
  match startTime with
  | none => "12:00:00"
  | some s =>
    match (pySplitColon s).take 2 with
    | [hs, ms] =>
      match pyNat? hs, pyNat? ms with
      | some hour, some minute =>
        fmt2 (hour + sessionDurationHours) ++ ":" ++ fmt2 minute ++ ":00"
      | _, _ => "12:00:00"
    | _ => "12:00:00"

/-! ### Booking-store interface (Supabase RPC) -/

/-- The `booking` object inside a `get_latest_appointment` response. -/
structure Booking where
  reference : Option String := none
  customer_name : Option String := none
  date_formatted : Option String := none
  time_slot : Option String := none
  deriving DecidableEq, Repr

/-- The empty dict used as the default for `data.get('booking', {})`. -/
def Booking.empty : Booking := {}

/-- JSON payload (`result.data`) of a booking-store procedure; every field is
optional, mirroring `dict.get` access in the source. -/
structure RpcData where
  status : Option String := none
  message : Option String := none
  spots_remaining : Option Nat := none
  booking_id : Option String := none
  booking_reference : Option String := none
  booking : Option Booking := none
  deriving DecidableEq, Repr

/-- One invocation of a booking-store stored procedure (`supabase.rpc(...)`),
with the parameter dict the source builds.  The phone parameters are optional
strings because `customer_phone` may still be `None` before the carrier
`start` event. -/
inductive RpcCall where
  | checkSlotAvailability (pDate : Option String) (pStartTime : Option String)
  | bookSpaSlot (pCustomerName : Option String) (pCustomerPhone : Option String)
      (pBookingDate : Option String) (pSlotStartTime : Option String) (pSlotEndTime : String)
  | getLatestAppointment (pPhoneNumber : Option String)
  | deleteAppointment (pPhoneNumber : Option String) (pBookingReference : Option String)
  deriving DecidableEq, Repr

/-- Execution environment of the bridge: the booking store responses and the
configured session duration (`Config.SESSION_DURATION_HOURS`, default 2).
`rpc c = none` models a falsy `result.data` for that call. -/
structure Env where
  rpc : RpcCall → Option RpcData
  sessionDurationHours : Nat

/-- The phone-number parameter carried by a booking-store call, when the
procedure has one. -/
def rpcPhone : RpcCall → Option (Option String)
  | .checkSlotAvailability _ _ => none
  | .bookSpaSlot _ p _ _ _ => some p
  | .getLatestAppointment p => some p
  | .deleteAppointment p _ => some p

/-- Result dict returned by `execute_function`; every key that can appear in
some branch is a field, absent keys are `none`. -/
structure FnResult where
  available : Option Bool := none
  spots_remaining : Option Nat := none
  success : Option Bool := none
  booking_reference : Option String := none
  found : Option Bool := none
  customer_name : Option String := none
  date : Option String := none
  time : Option String := none
  message : Option String := none
  error : Option String := none
  deriving DecidableEq, Repr

/-- Truthiness of `result.get('error')`, used for the logged success flag
(`function_call.success = not result.get('error')`, app.py line 694). -/
def fnCallSuccess (r : FnResult) : Bool := !pyTruthyS r.error

/-- Shared tail of the `delete_appointment` branch (app.py lines 854-872):
the `delete_appointment` RPC and the mapping of its response. -/
def runDeleteRpc (env : Env) (phone : Option String) (bookingReference : Option String) :
    List RpcCall × FnResult :=
  let call := RpcCall.deleteAppointment phone bookingReference
  match env.rpc call with
  | some data =>
    if data.status == some "success" then
      ([call], { success := some true, message := some (data.message.getD "Booking cancelled") })
    else
      ([call], { success := some false, message := some (data.message.getD "Cancellation failed") })
  | none => ([call], { success := some false, message := some "Cancellation error" })

/-- `execute_function` (app.py lines 742-879).  Returns the list of
booking-store procedures invoked, in order, and the result dict returned to
the caller.  Writes to the `call_sessions` table (not a booking-store
procedure) are omitted; the model keeps the store total, so the bare
`except` branch returning a `System error` result is not exercised. -/
def executeFunction (env : Env) (functionName : Option String)
    (arguments : List (String × String)) (customerPhone : Option String) :
    List RpcCall × FnResult :=
  if functionName == some "check_slot_availability" then
    let startTime := format_time_for_db (argsGet arguments "start_time")
    let date := argsGet arguments "date"
    let call := RpcCall.checkSlotAvailability date startTime
    match env.rpc call with
    | some data =>
      if data.status == some "success" then
        ([call], { available := some true,
                   spots_remaining := some (data.spots_remaining.getD 0),
                   message := some ("Slot available with " ++ pyStrNatOpt data.spots_remaining ++ " spots") })
      else
        ([call], { available := some false, message := some (data.message.getD "Slot full") })
    | none => ([call], { available := some false, message := some "Error checking availability" })
  else if functionName == some "book_spa_slot" then
    let startTime := format_time_for_db (argsGet arguments "start_time")
    let endTime := calculate_end_time env.sessionDurationHours (argsGet arguments "start_time")
    let call := RpcCall.bookSpaSlot (argsGet arguments "name") customerPhone
      (argsGet arguments "date") startTime endTime
    match env.rpc call with
    | some data =>
      if data.status == some "success" then
        ([call], { success := some true,
                   booking_reference := data.booking_reference,
                   message := some ("Booking confirmed. Reference: " ++ pyStrOpt data.booking_reference) })
      else
        ([call], { success := some false, message := some (data.message.getD "Booking failed") })
    | none => ([call], { success := some false, message := some "Booking error" })
  else if functionName == some "get_latest_appointment" then
    let call := RpcCall.getLatestAppointment customerPhone
    match env.rpc call with
    | some data =>
      if data.status == some "success" then
        let booking := data.booking.getD Booking.empty
        ([call], { found := some true,
                   booking_reference := booking.reference,
                   customer_name := booking.customer_name,
                   date := booking.date_formatted,
                   time := booking.time_slot,
                   message := some ("Found booking: " ++ pyStrOpt booking.reference ++ " for "
                     ++ pyStrOpt booking.date_formatted ++ " at " ++ pyStrOpt booking.time_slot) })
      else
        ([call], { found := some false, message := some "No bookings found" })
    | none => ([call], { found := some false, message := some "No bookings found" })
  else if functionName == some "delete_appointment" then
    let bookingReference := argsGet arguments "booking_reference"
    if !pyTruthyS bookingReference then
      let latestCall := RpcCall.getLatestAppointment customerPhone
      match env.rpc latestCall with
      | some ldata =>
        if ldata.status == some "success" then
          let booking := ldata.booking.getD Booking.empty
          let res := runDeleteRpc env customerPhone booking.reference
          (latestCall :: res.1, res.2)
        else
          ([latestCall], { success := some false, message := some "No booking found to cancel" })
      | none =>
        ([latestCall], { success := some false, message := some "No booking found to cancel" })
    else
      runDeleteRpc env customerPhone bookingReference
  else
    ([], { error := some ("Unknown function: " ++ pyStrOpt functionName) })

/-- Tool dispatch as performed by `send_to_twilio` (app.py lines 687-696):
`execute_function` is awaited to completion — there is no `asyncio.wait_for`
or any other deadline around it — and the elapsed time is then measured.
`durationMs` gives the wall-clock duration of each booking-store call; the
modelled execution time is their sum.  Returns (calls, result, elapsed ms). -/
def toolDispatch (env : Env) (durationMs : RpcCall → Nat) (functionName : Option String)
    (arguments : List (String × String)) (customerPhone : Option String) :
    List RpcCall × FnResult × Nat :=
  let r := executeFunction env functionName arguments customerPhone
  (r.1, r.2, (r.1.map durationMs).sum)

/-! ### Conversation log (app.py `ConversationLogger`, in-memory part)

Database inserts are best-effort side effects; the in-memory aggregate
(`log.turn_counter`, `log.turns`, `log.function_calls`) is what the claims
quantify over.  `Option ConvLog` stands for
`conversation_logger.conversations.get(stream_sid)`. -/

/-- One conversation turn as appended by `ConversationLogger.add_turn`. -/
structure TurnRec where
  role : String
  transcript : String
  turnNumber : Nat
  eventId : Option String
  itemId : Option String
  deriving DecidableEq, Repr

/-- One logged function call (`ConversationLogger.add_function_call`). -/
structure FnCallRec where
  functionName : Option String
  arguments : List (String × String)
  callId : Option String
  result : FnResult
  success : Bool
  deriving DecidableEq, Repr

/-- In-memory conversation aggregate (`ConversationLog`). -/
structure ConvLog where
  turnCounter : Nat
  turns : List TurnRec
  functionCalls : List FnCallRec
  deriving DecidableEq, Repr

/-- `ConversationLogger.add_turn` (app.py lines 152-186): a missing
conversation is a no-op; otherwise the counter is incremented and the turn
appended with the new ordinal. -/
def addTurn (conv : Option ConvLog) (role transcript : String)
    (eventId itemId : Option String) : Option ConvLog :=
  match conv with
  | none => none
  | some log =>
    some { log with
      turnCounter := log.turnCounter + 1,
      turns := log.turns ++ [⟨role, transcript, log.turnCounter + 1, eventId, itemId⟩] }

/-- `ConversationLogger.add_function_call` (app.py lines 188-225): a missing
conversation is a no-op; otherwise the record is appended. -/
def addFunctionCall (conv : Option ConvLog) (rec : FnCallRec) : Option ConvLog :=
  match conv with
  | none => none
  | some log => some { log with functionCalls := log.functionCalls ++ [rec] }

/-! ### AI → carrier direction (`send_to_twilio`, app.py lines 611-725)

The loop body is a step function on the shared per-call state; the loop is a
fold over the sequence of frames received from the AI socket. -/

/-- One frame received from the AI socket, after `json.loads` of the frame.
`malformed` is a frame whose JSON decoding fails (skipped by the inner
handler).  In `functionCallArgumentsDone`, `arguments = none` models an
`arguments` string whose own `json.loads` raises `JSONDecodeError`
(app.py line 675), while `some args` is a parsed JSON object. -/
inductive AiEvent where
  | inputAudioTranscriptionCompleted (transcript : Option String)
      (eventId itemId : Option String)
  | audioTranscriptDelta (delta : Option String)
  | audioTranscriptDone (transcript : Option String) (eventId itemId : Option String)
  | audioDelta (delta : Option String)
  | functionCallArgumentsDone (name : Option String) (callId : Option String)
      (arguments : Option (List (String × String)))
  | malformed
  | other
  deriving DecidableEq, Repr

/-- A message the bridge sends to the AI socket from this direction. -/
inductive AiMsgOut where
  | functionCallOutput (callId : Option String) (output : FnResult)
  | responseCreate
  deriving DecidableEq, Repr

/-- An outbound effect of the AI → carrier direction. -/
inductive AiOut where
  | toAi (m : AiMsgOut)
  | toTwilio (streamSid : String) (payload : String)
  deriving DecidableEq, Repr

/-- State visible to `send_to_twilio`: the shared nonlocals plus the
conversation entry for the current stream identifier. -/
structure AiState where
  streamSid : Option String
  customerPhone : Option String
  currentAiTranscript : String
  conv : Option ConvLog
  deriving DecidableEq, Repr

/-- Turns of a conversation entry (empty when no entry exists). -/
def convTurns : Option ConvLog → List TurnRec
  | none => []
  | some log => log.turns

/-- Turn counter of a conversation entry (0 when no entry exists). -/
def convCounter : Option ConvLog → Nat
  | none => 0
  | some log => log.turnCounter

/-- Turns of the conversation entry of a state. -/
def AiState.turnsOf (s : AiState) : List TurnRec := convTurns s.conv

/-- Turn counter of the conversation entry of a state. -/
def AiState.counterOf (s : AiState) : Nat := convCounter s.conv

/-- Whether an AI frame carries a non-empty transcript field. -/
def AiEvent.hasNonemptyTranscript : AiEvent → Bool
  | .inputAudioTranscriptionCompleted t _ _ => (t.getD "").length != 0
  | .audioTranscriptDone t _ _ => (t.getD "").length != 0
  | _ => false

/-- Loop body of `send_to_twilio` (app.py lines 616-722). -/
def aiStep (env : Env) (s : AiState) : AiEvent → AiState × List AiOut
  | .inputAudioTranscriptionCompleted t eventId itemId =>
    let transcript := t.getD ""
    if transcript.length != 0 && pyTruthyS s.streamSid then
      ({ s with conv := addTurn s.conv "user" transcript eventId itemId }, [])
    else (s, [])
  | .audioTranscriptDelta d =>
    ({ s with currentAiTranscript := s.currentAiTranscript ++ d.getD "" }, [])
  | .audioTranscriptDone t eventId itemId =>
    let transcript := t.getD ""
    let conv' :=
      if transcript.length != 0 && pyTruthyS s.streamSid then
        addTurn s.conv "assistant" transcript eventId itemId
      else s.conv
    ({ s with conv := conv', currentAiTranscript := "" }, [])
  | .audioDelta d =>
    if pyTruthyS s.streamSid && pyTruthyS d then
      (s, [AiOut.toTwilio (s.streamSid.getD "") (d.getD "")])
    else (s, [])
  | .functionCallArgumentsDone name callId arguments =>
    match arguments with
    | none => (s, [])
    | some args =>
      let result := (executeFunction env name args s.customerPhone).2
      let fc : FnCallRec := ⟨name, args, callId, result, fnCallSuccess result⟩
      let conv' := if pyTruthyS s.streamSid then addFunctionCall s.conv fc else s.conv
      ({ s with conv := conv' },
       [AiOut.toAi (AiMsgOut.functionCallOutput callId result),
        AiOut.toAi AiMsgOut.responseCreate])
  | .malformed => (s, [])
  | .other => (s, [])

/-- The `async for` loop of `send_to_twilio`: outputs of one frame are sent
(awaited) before the next frame is read. -/
def aiRun (env : Env) (s : AiState) : List AiEvent → AiState × List AiOut
  | [] => (s, [])
  | e :: es =>
    ((aiRun env (aiStep env s e).1 es).1,
     (aiStep env s e).2 ++ (aiRun env (aiStep env s e).1 es).2)

/-! ### Carrier → AI direction (`receive_from_twilio`, app.py lines 503-609) -/

/-- One frame received from the carrier socket.  The `start` frame carries
the optional `streamSid` and the custom parameters dict; `malformed` is a
frame whose JSON decoding fails; `other` is any unrecognized event kind. -/
inductive TwilioEvent where
  | connected
  | start (streamSid : Option String) (customParameters : List (String × String))
  | media (payload : String)
  | stop
  | malformed
  | other
  deriving DecidableEq, Repr

/-- Whether a carrier frame is a `start` event. -/
def TwilioEvent.isStart : TwilioEvent → Bool
  | .start _ _ => true
  | _ => false

/-- A message the bridge sends to the AI socket from this direction.
The `session.update` payload is a constant configuration (modalities, µ-law
formats, server VAD, whisper transcription, the tools of §4.4) except for the
instructions, which substitute the caller phone; only that substitution is
carried here. -/
inductive AiCtl where
  | sessionUpdate (instructionsPhone : String)
  | audioAppend (payload : String)
  deriving DecidableEq, Repr

/-- Whether a `session.update` occurs in a list of sends. -/
def containsSessionUpdate (l : List AiCtl) : Bool :=
  l.any fun c =>
    match c with
    | .sessionUpdate _ => true
    | _ => false

/-- State of `receive_from_twilio`: the shared nonlocals, whether
`create_conversation` has been invoked, whether `end_conversation` has been
invoked, and whether the loop has executed `break`. -/
structure TwilioState where
  streamSid : Option String
  customerPhone : Option String
  callSid : Option String
  sessionInitialized : Bool
  conversationCreated : Bool
  conversationEnded : Bool
  stopped : Bool
  deriving DecidableEq, Repr

/-- State at entry of `receive_from_twilio`. -/
def initTwilioState : TwilioState :=
  ⟨none, none, none, false, false, false, false⟩

/-- Loop body of `receive_from_twilio` (app.py lines 509-598). -/
def twilioStep (s : TwilioState) : TwilioEvent → TwilioState × List AiCtl
  | .connected => (s, [])
  | .start sid params =>
    let phone := (argsGet params "customerPhone").getD "Unknown"
    let csid := (argsGet params "callSid").getD "Unknown"
    ({ s with streamSid := sid, customerPhone := some phone, callSid := some csid,
              conversationCreated := true, sessionInitialized := true },
     [AiCtl.sessionUpdate phone])
  | .media payload =>
    if pyTruthyS s.streamSid && s.sessionInitialized then
      (s, [AiCtl.audioAppend payload])
    else (s, [])
  | .stop =>
    ({ s with conversationEnded := s.conversationEnded || pyTruthyS s.streamSid,
              stopped := true }, [])
  | .malformed => (s, [])
  | .other => (s, [])

/-- The `async for` loop of `receive_from_twilio`; `stop` executes `break`,
so frames after a `stop` are never processed. -/
def twilioRun (s : TwilioState) : List TwilioEvent → TwilioState × List AiCtl
  | [] => (s, [])
  | e :: es =>
    if s.stopped then (s, [])
    else
      ((twilioRun (twilioStep s e).1 es).1,
       (twilioStep s e).2 ++ (twilioRun (twilioStep s e).1 es).2)

/-! ### The handler (`media_stream_handler`, app.py lines 466-740)

After accepting the carrier socket the handler immediately evaluates
`async with websockets.connect(openai_url, ...)` — a single connection
attempt, made before any carrier frame is read.  If the handshake raises,
the exception reaches the outer `except` and the handler returns; no retry,
no delay.  `handshake n` is the outcome the n-th attempt would have; the
source only ever makes attempt 0. -/

/-- Observable outcome of one call to `media_stream_handler`, restricted to
the carrier → AI direction and the connection phase. -/
structure HandlerOutcome where
  aiConnectionOpened : Bool
  aiConnectAttempts : Nat
  conversationCreated : Bool
  aiCtlSends : List AiCtl
  deriving DecidableEq, Repr

/-- `media_stream_handler` over a list of carrier frames. -/
def mediaStreamHandler (handshake : Nat → Bool) (carrierEvents : List TwilioEvent) :
    HandlerOutcome :=
  if handshake 0 then
    { aiConnectionOpened := true, aiConnectAttempts := 1,
      conversationCreated := (twilioRun initTwilioState carrierEvents).1.conversationCreated,
      aiCtlSends := (twilioRun initTwilioState carrierEvents).2 }
  else
    { aiConnectionOpened := false, aiConnectAttempts := 1,
      conversationCreated := false, aiCtlSends := [] }

/-! ### Shared lemmas about the two relay folds -/

lemma aiStep_customerPhone (env : Env) (s : AiState) (e : AiEvent) :
    (aiStep env s e).1.customerPhone = s.customerPhone := by
  cases e <;> simp [aiStep] <;> split <;> simp

lemma aiRun_customerPhone (env : Env) (es : List AiEvent) (s : AiState) :
    (aiRun env s es).1.customerPhone = s.customerPhone := by
  induction es generalizing s with
  | nil => rfl
  | cons e es ih => rw [aiRun, ih, aiStep_customerPhone]

lemma aiRun_append (env : Env) (xs ys : List AiEvent) (s : AiState) :
    aiRun env s (xs ++ ys) =
      ((aiRun env (aiRun env s xs).1 ys).1,
       (aiRun env s xs).2 ++ (aiRun env (aiRun env s xs).1 ys).2) := by
  induction xs generalizing s with
  | nil => simp [aiRun]
  | cons x xs ih => simp [aiRun, ih, List.append_assoc]

lemma twilioRun_stopped (s : TwilioState) (hs : s.stopped = true) (es : List TwilioEvent) :
    twilioRun s es = (s, []) := by
  cases es with
  | nil => rfl
  | cons e es => simp [twilioRun, hs]

lemma twilioRun_append (xs ys : List TwilioEvent) (s : TwilioState) :
    twilioRun s (xs ++ ys) =
      ((twilioRun (twilioRun s xs).1 ys).1,
       (twilioRun s xs).2 ++ (twilioRun (twilioRun s xs).1 ys).2) := by
  induction xs generalizing s with
  | nil => simp [twilioRun]
  | cons x xs ih =>
    by_cases hs : s.stopped
    · simp [twilioRun, hs, twilioRun_stopped s hs]
    · rw [List.cons_append]
      simp only [twilioRun, hs, if_false]
      rw [ih]
      simp [List.append_assoc]

lemma twilioStep_init_mono (s : TwilioState) (e : TwilioEvent)
    (h : s.sessionInitialized = true) :
    (twilioStep s e).1.sessionInitialized = true := by
  cases e <;> simp [twilioStep, h]
  split <;> simp [h]

lemma twilioRun_init_mono (es : List TwilioEvent) (s : TwilioState)
    (h : s.sessionInitialized = true) :
    (twilioRun s es).1.sessionInitialized = true := by
  induction es generalizing s with
  | nil => exact h
  | cons e es ih =>
    by_cases hs : s.stopped
    · simpa [twilioRun, hs] using h
    · simpa [twilioRun, hs] using ih _ (twilioStep_init_mono s e h)

lemma twilioStep_update_init (s : TwilioState) (e : TwilioEvent)
    (h : containsSessionUpdate (twilioStep s e).2 = true) :
    (twilioStep s e).1.sessionInitialized = true := by
  cases e <;> simp [twilioStep, containsSessionUpdate] at h ⊢
  case media payload => split at h <;> simp_all [containsSessionUpdate]

lemma twilioRun_update_init (es : List TwilioEvent) (s : TwilioState)
    (h : containsSessionUpdate (twilioRun s es).2 = true) :
    (twilioRun s es).1.sessionInitialized = true := by
  induction es generalizing s with
  | nil => simp [twilioRun, containsSessionUpdate] at h
  | cons e es ih =>
    by_cases hs : s.stopped
    · rw [twilioRun_stopped s hs] at h
      simp [containsSessionUpdate] at h
    · rw [show twilioRun s (e :: es)
            = ((twilioRun (twilioStep s e).1 es).1,
               (twilioStep s e).2 ++ (twilioRun (twilioStep s e).1 es).2) by
          simp [twilioRun, hs]] at h ⊢
      simp only [containsSessionUpdate, List.any_append, Bool.or_eq_true] at h
      rcases h with h1 | h2
      · exact twilioRun_init_mono es _ (twilioStep_update_init s e h1)
      · exact ih _ h2

lemma twilioStep_media_drop (s : TwilioState) (p : String)
    (h : s.sessionInitialized = false) :
    twilioStep s (.media p) = (s, []) := by
  simp [twilioStep, h]

lemma twilioRun_cons (s : TwilioState) (e : TwilioEvent) (es : List TwilioEvent)
    (hs : s.stopped = false) :
    twilioRun s (e :: es)
      = ((twilioRun (twilioStep s e).1 es).1,
         (twilioStep s e).2 ++ (twilioRun (twilioStep s e).1 es).2) := by
  simp [twilioRun, hs]

lemma aiStep_fcDone_out (env : Env) (s : AiState) (name callId : Option String)
    (args : List (String × String)) :
    (aiStep env s (.functionCallArgumentsDone name callId (some args))).2
      = [AiOut.toAi (AiMsgOut.functionCallOutput callId
           (executeFunction env name args s.customerPhone).2),
         AiOut.toAi AiMsgOut.responseCreate] := rfl

/-- Booking store that answers every procedure with falsy data. -/
def envNone : Env := ⟨fun _ => none, 2⟩

/-- A mid-call state: stream identifier known, caller phone known,
conversation entry present. -/
def runningState : AiState :=
  ⟨some "MZ1", some "+391110002222", "", some ⟨0, [], []⟩⟩

/-! ### Claims -/

/-- Claim C1, counterexample: a `response.function_call_arguments.done` frame
whose `arguments` string is not valid JSON (modelled by `arguments = none`)
produces no send at all — `json.loads` raises `JSONDecodeError` (app.py line
675), the inner handler continues (line 720), and neither a
`function_call_output` nor a `response.create` is sent, refuting
"exactly one ... for every such event". -/
theorem c1_counterexample :
    (aiRun envNone runningState
      [AiEvent.functionCallArgumentsDone (some "book_spa_slot") (some "fc1") none]).2
      = [] := rfl

/-- Claim C1, amended: for every `response.function_call_arguments.done` frame
whose `arguments` string parses as a JSON object, the bridge sends exactly one
`conversation.item.create` of kind `function_call_output` carrying the same
`call_id`, followed immediately by exactly one `response.create`, and both are
sent before any output of a later AI frame: the output trace decomposes as the
prefix outputs, then precisely these two sends, then the suffix outputs. -/
theorem c1_tool_result_ordering (env : Env) (s : AiState) (es₁ es₂ : List AiEvent)
    (name callId : Option String) (args : List (String × String)) :
    (aiRun env s (es₁ ++ AiEvent.functionCallArgumentsDone name callId (some args) :: es₂)).2
      = (aiRun env s es₁).2
        ++ AiOut.toAi (AiMsgOut.functionCallOutput callId
              (executeFunction env name args s.customerPhone).2)
           :: AiOut.toAi AiMsgOut.responseCreate
           :: (aiRun env (aiStep env (aiRun env s es₁).1
                (AiEvent.functionCallArgumentsDone name callId (some args))).1 es₂).2 := by
  rw [aiRun_append]
  conv_lhs =>
    rw [show aiRun env (aiRun env s es₁).1
          (AiEvent.functionCallArgumentsDone name callId (some args) :: es₂)
        = ((aiRun env (aiStep env (aiRun env s es₁).1
              (AiEvent.functionCallArgumentsDone name callId (some args))).1 es₂).1,
           (aiStep env (aiRun env s es₁).1
              (AiEvent.functionCallArgumentsDone name callId (some args))).2
             ++ (aiRun env (aiStep env (aiRun env s es₁).1
                  (AiEvent.functionCallArgumentsDone name callId (some args))).1 es₂).2)
        from rfl]
  rw [aiStep_fcDone_out, aiRun_customerPhone]
  simp

/-- Claim C2, counterexample: when the AI handshake fails on every attempt,
the handler makes exactly one `websockets.connect` attempt — not three — and
the session terminates at once; the `async with websockets.connect(...)`
(app.py line 485) has no retry loop, no inter-attempt delay and no budget. -/
theorem c2_counterexample :
    (mediaStreamHandler (fun _ => false) []).aiConnectAttempts = 1 ∧
    ¬ (mediaStreamHandler (fun _ => false) []).aiConnectAttempts = 3 ∧
    (mediaStreamHandler (fun _ => false) []).aiConnectionOpened = false := by decide

/-- Claim C2, amended: opening the AI realtime WebSocket is attempted exactly
once, with no retry and no delay; the session has an AI connection exactly
when that single handshake succeeds, and on handshake failure the handler
terminates without processing carrier frames, creating a conversation record,
or sending anything to the AI. -/
theorem c2_single_attempt (handshake : Nat → Bool) (es : List TwilioEvent) :
    (mediaStreamHandler handshake es).aiConnectAttempts = 1 ∧
    (mediaStreamHandler handshake es).aiConnectionOpened = handshake 0 ∧
    (handshake 0 = false →
      mediaStreamHandler handshake es
        = { aiConnectionOpened := false, aiConnectAttempts := 1,
            conversationCreated := false, aiCtlSends := [] }) := by
  unfold mediaStreamHandler
  by_cases h : handshake 0 <;> simp [h]

/-- Claim C2, witness for the amended theorem at a concrete failing handshake. -/
theorem c2_witness :
    (mediaStreamHandler (fun _ => false) [TwilioEvent.connected]).aiConnectAttempts = 1 ∧
    mediaStreamHandler (fun _ => false) [TwilioEvent.connected]
      = { aiConnectionOpened := false, aiConnectAttempts := 1,
          conversationCreated := false, aiCtlSends := [] } :=
  ⟨(c2_single_attempt (fun _ => false) [TwilioEvent.connected]).1,
   (c2_single_attempt (fun _ => false) [TwilioEvent.connected]).2.2 rfl⟩

lemma twilioRun_media_invisible (es₂ : List TwilioEvent) (p : String) :
    ∀ (es₁ : List TwilioEvent) (s : TwilioState),
    (twilioRun s es₁).1.sessionInitialized = false →
    twilioRun s (es₁ ++ TwilioEvent.media p :: es₂) = twilioRun s (es₁ ++ es₂) := by
  intro es₁
  induction es₁ with
  | nil =>
    intro s h
    by_cases hs : s.stopped = true
    · simp only [List.nil_append]
      rw [twilioRun_stopped s hs, twilioRun_stopped s hs]
    · have hs' : s.stopped = false := by simpa using hs
      simp only [List.nil_append]
      rw [twilioRun_cons s (TwilioEvent.media p) es₂ hs']
      rw [twilioStep_media_drop s p h]
      simp
  | cons e es₁ ih =>
    intro s h
    by_cases hs : s.stopped = true
    · simp only [List.cons_append]
      rw [twilioRun_stopped s hs, twilioRun_stopped s hs]
    · have hs' : s.stopped = false := by simpa using hs
      simp only [List.cons_append]
      rw [twilioRun_cons s e _ hs', twilioRun_cons s e _ hs']
      rw [twilioRun_cons s e _ hs'] at h
      rw [ih (twilioStep s e).1 h]

/-- Claim C3: a carrier `media` frame received while the session is not yet
initialized (equivalently, before the `session.update` has been sent: no
`session.update` occurs among the sends of the prefix) is dropped entirely —
the run over the event sequence with the frame equals the run without it, so
no `input_audio_buffer.append` is produced and nothing is queued. -/
theorem c3_media_dropped_before_init (es₁ es₂ : List TwilioEvent) (p : String)
    (h : (twilioRun initTwilioState es₁).1.sessionInitialized = false) :
    twilioRun initTwilioState (es₁ ++ TwilioEvent.media p :: es₂)
        = twilioRun initTwilioState (es₁ ++ es₂) ∧
    containsSessionUpdate (twilioRun initTwilioState es₁).2 = false := by
  refine ⟨twilioRun_media_invisible es₂ p es₁ initTwilioState h, ?_⟩
  by_contra hc
  have := twilioRun_update_init es₁ initTwilioState (by simpa using hc)
  rw [this] at h
  exact absurd h (by simp)

/-- Claim C3, witness at a concrete prefix with no `start` frame. -/
theorem c3_witness :
    twilioRun initTwilioState
        ([TwilioEvent.connected] ++ TwilioEvent.media "QUJD" :: [TwilioEvent.stop])
      = twilioRun initTwilioState ([TwilioEvent.connected] ++ [TwilioEvent.stop]) ∧
    containsSessionUpdate (twilioRun initTwilioState [TwilioEvent.connected]).2 = false :=
  c3_media_dropped_before_init [TwilioEvent.connected] [TwilioEvent.stop] "QUJD" (by decide)

lemma twilioStep_nonstart (s : TwilioState) (e : TwilioEvent)
    (he : e.isStart = false) (hinit : s.sessionInitialized = false) :
    (twilioStep s e).2 = [] ∧
    (twilioStep s e).1.sessionInitialized = false ∧
    (twilioStep s e).1.conversationCreated = s.conversationCreated := by
  cases e <;> simp [twilioStep, TwilioEvent.isStart, hinit] at he ⊢

lemma twilioRun_no_start (es : List TwilioEvent) :
    ∀ (s : TwilioState), (∀ e ∈ es, e.isStart = false) →
    s.sessionInitialized = false →
    (twilioRun s es).2 = [] ∧
    (twilioRun s es).1.sessionInitialized = false ∧
    (twilioRun s es).1.conversationCreated = s.conversationCreated := by
  induction es with
  | nil => intro s _ hinit; exact ⟨rfl, hinit, rfl⟩
  | cons e es ih =>
    intro s hno hinit
    by_cases hs : s.stopped
    · rw [twilioRun_stopped s hs]
      exact ⟨rfl, hinit, rfl⟩
    · have hstep := twilioStep_nonstart s e (hno e (by simp)) hinit
      have hrest := ih (twilioStep s e).1 (fun x hx => hno x (by simp [hx])) hstep.2.1
      simp only [twilioRun, hs, if_false]
      exact ⟨by rw [hstep.1, hrest.1]; rfl,
             hrest.2.1, hrest.2.2.trans hstep.2.2⟩

/-- Claim C5, counterexample: a `stop` received before any `start` does not
prevent the AI connection — `media_stream_handler` opens the AI realtime
WebSocket immediately after accepting the carrier socket (app.py line 485),
before reading any carrier frame, so the connection is already open; only the
conversation record is indeed never created. -/
theorem c5_counterexample :
    (mediaStreamHandler (fun _ => true) [TwilioEvent.stop]).aiConnectionOpened = true ∧
    (mediaStreamHandler (fun _ => true) [TwilioEvent.stop]).conversationCreated = false := by
  decide

/-- Claim C5, amended: if `stop` arrives before any `start`, no conversation
record is created and nothing is ever sent to the AI from the carrier
direction (no `session.update`, no audio); however, the AI connection itself
has already been opened iff the single handshake made at socket accept
succeeded, independent of the carrier frames. -/
theorem c5_stop_before_start (handshake : Nat → Bool) (es₁ es₂ : List TwilioEvent)
    (hnostart : ∀ e ∈ es₁, e.isStart = false) :
    (mediaStreamHandler handshake (es₁ ++ TwilioEvent.stop :: es₂)).conversationCreated
        = false ∧
    (mediaStreamHandler handshake (es₁ ++ TwilioEvent.stop :: es₂)).aiCtlSends = [] ∧
    (mediaStreamHandler handshake (es₁ ++ TwilioEvent.stop :: es₂)).aiConnectionOpened
        = handshake 0 := by
  by_cases h0 : handshake 0
  · have hpre := twilioRun_no_start es₁ initTwilioState hnostart rfl
    have htail : (twilioRun (twilioRun initTwilioState es₁).1 (TwilioEvent.stop :: es₂)).2 = [] ∧
        (twilioRun (twilioRun initTwilioState es₁).1
            (TwilioEvent.stop :: es₂)).1.conversationCreated
          = (twilioRun initTwilioState es₁).1.conversationCreated := by
      by_cases hs : (twilioRun initTwilioState es₁).1.stopped = true
      · rw [twilioRun_stopped _ hs]
        exact ⟨rfl, rfl⟩
      · have hs' : (twilioRun initTwilioState es₁).1.stopped = false := by simpa using hs
        rw [twilioRun_cons _ TwilioEvent.stop es₂ hs']
        rw [twilioRun_stopped
              ((twilioStep (twilioRun initTwilioState es₁).1 TwilioEvent.stop).1)
              (by rfl)]
        exact ⟨rfl, rfl⟩
    have hfull2 : (twilioRun initTwilioState (es₁ ++ TwilioEvent.stop :: es₂)).2 = [] := by
      rw [twilioRun_append]
      simp [hpre.1, htail.1]
    have hfull1 :
        (twilioRun initTwilioState (es₁ ++ TwilioEvent.stop :: es₂)).1.conversationCreated
          = false := by
      rw [twilioRun_append]
      have h2 : (twilioRun initTwilioState es₁).1.conversationCreated = false := hpre.2.2
      simp [htail.2, h2]
    refine ⟨?_, ?_, ?_⟩ <;> simp [mediaStreamHandler, h0, hfull1, hfull2]
  · simp [mediaStreamHandler, h0]

/-- Claim C5, witness for the amended theorem at a concrete trace. -/
theorem c5_witness :
    (mediaStreamHandler (fun _ => true)
        ([TwilioEvent.connected] ++ TwilioEvent.stop :: [])).conversationCreated = false ∧
    (mediaStreamHandler (fun _ => true)
        ([TwilioEvent.connected] ++ TwilioEvent.stop :: [])).aiCtlSends = [] :=
  ⟨(c5_stop_before_start (fun _ => true) [TwilioEvent.connected] [] (by decide)).1,
   (c5_stop_before_start (fun _ => true) [TwilioEvent.connected] [] (by decide)).2.1⟩

/-- Booking store answering `book_spa_slot` with a successful booking and
everything else with falsy data. -/
def c4Env : Env :=
  ⟨fun c =>
    match c with
    | .bookSpaSlot _ _ _ _ _ =>
      some { status := some "success", booking_id := some "b1",
             booking_reference := some "SPA-000001" }
    | _ => none, 2⟩

/-- Booking-store call durations of 1,000,000 ms (over 16 minutes). -/
def c4Dur : RpcCall → Nat := fun _ => 1000000

/-- Arguments of a well-formed booking request. -/
def c4Args : List (String × String) :=
  [("name", "Ada"), ("date", "2025-01-20"), ("start_time", "10:00")]

/-- Claim C4, counterexample: a booking call that takes 1,000,000 ms — far
beyond the claimed 15 s deadline — still returns the booking result, not
`{error: "timeout"}`, and the invocation is recorded successful: the dispatch
in `send_to_twilio` (app.py lines 687-696) awaits `execute_function` with no
`asyncio.wait_for` or other deadline. -/
theorem c4_counterexample :
    (toolDispatch c4Env c4Dur (some "book_spa_slot") c4Args (some "+391110002222")).2.2
        = 1000000 ∧
    15000 < (toolDispatch c4Env c4Dur (some "book_spa_slot") c4Args (some "+391110002222")).2.2 ∧
    (toolDispatch c4Env c4Dur (some "book_spa_slot") c4Args (some "+391110002222")).2.1.error
        = none ∧
    (toolDispatch c4Env c4Dur (some "book_spa_slot") c4Args (some "+391110002222")).2.1.success
        = some true ∧
    fnCallSuccess
        (toolDispatch c4Env c4Dur (some "book_spa_slot") c4Args (some "+391110002222")).2.1
        = true := by
  decide

/-- Claim C4, amended: tool dispatch runs under no deadline at all — the
bridge awaits the booking call to completion whatever its duration, the
result returned to the AI is exactly the dispatcher result and is independent
of how long the booking-store calls take, the recorded elapsed time is the
full duration, and a tool call is dispatched the same way regardless of the
session state, so subsequent tool calls still work. -/
theorem c4_no_deadline (env : Env) (dur₁ dur₂ : RpcCall → Nat) (name : Option String)
    (args : List (String × String)) (phone : Option String) :
    (toolDispatch env dur₁ name args phone).1 = (executeFunction env name args phone).1 ∧
    (toolDispatch env dur₁ name args phone).2.1 = (executeFunction env name args phone).2 ∧
    (toolDispatch env dur₁ name args phone).2.1 = (toolDispatch env dur₂ name args phone).2.1 ∧
    (toolDispatch env dur₁ name args phone).2.2
        = ((executeFunction env name args phone).1.map dur₁).sum ∧
    ∀ (s : AiState) (callId : Option String),
      (aiStep env s (AiEvent.functionCallArgumentsDone name callId (some args))).2
        = [AiOut.toAi (AiMsgOut.functionCallOutput callId
             (executeFunction env name args s.customerPhone).2),
           AiOut.toAi AiMsgOut.responseCreate] :=
  ⟨rfl, rfl, rfl, rfl, fun _ _ => rfl⟩

lemma runDeleteRpc_calls (env : Env) (phone ref : Option String) :
    (runDeleteRpc env phone ref).1 = [RpcCall.deleteAppointment phone ref] := by
  cases henv : env.rpc (RpcCall.deleteAppointment phone ref) with
  | none => simp [runDeleteRpc, henv]
  | some data =>
    simp only [runDeleteRpc, henv]
    split <;> rfl

lemma executeFunction_book_calls (env : Env) (args : List (String × String))
    (phone : Option String) :
    (executeFunction env (some "book_spa_slot") args phone).1
      = [RpcCall.bookSpaSlot (argsGet args "name") phone (argsGet args "date")
          (format_time_for_db (argsGet args "start_time"))
          (calculate_end_time env.sessionDurationHours (argsGet args "start_time"))] := by
  cases henv : env.rpc (RpcCall.bookSpaSlot (argsGet args "name") phone (argsGet args "date")
      (format_time_for_db (argsGet args "start_time"))
      (calculate_end_time env.sessionDurationHours (argsGet args "start_time"))) with
  | none => simp [executeFunction, henv]
  | some data =>
    simp [executeFunction, henv]
    by_cases hst : data.status = some "success" <;> simp [hst]

lemma executeFunction_latest_calls (env : Env) (args : List (String × String))
    (phone : Option String) :
    (executeFunction env (some "get_latest_appointment") args phone).1
      = [RpcCall.getLatestAppointment phone] := by
  cases henv : env.rpc (RpcCall.getLatestAppointment phone) with
  | none => simp [executeFunction, henv]
  | some data =>
    simp [executeFunction, henv]
    by_cases hst : data.status = some "success" <;> simp [hst]

lemma executeFunction_delete_phone (env : Env) (args : List (String × String))
    (phone : Option String) :
    ∀ c ∈ (executeFunction env (some "delete_appointment") args phone).1,
      rpcPhone c = some phone := by
  intro c hc
  by_cases href : pyTruthyS (argsGet args "booking_reference") = true
  · rw [show executeFunction env (some "delete_appointment") args phone
        = runDeleteRpc env phone (argsGet args "booking_reference") from by
          simp [executeFunction, href]] at hc
    rw [runDeleteRpc_calls] at hc
    simp at hc
    subst hc
    rfl
  · have href' : pyTruthyS (argsGet args "booking_reference") = false := by
      simpa using href
    cases henv : env.rpc (RpcCall.getLatestAppointment phone) with
    | none =>
      simp [executeFunction, href', henv] at hc
      subst hc
      rfl
    | some ldata =>
      by_cases hst : ldata.status = some "success"
      · simp [executeFunction, href', henv, hst, runDeleteRpc_calls] at hc
        rcases hc with hc | hc <;> subst hc <;> rfl
      · simp [executeFunction, href', henv, hst] at hc
        subst hc
        rfl

/-- Claim C6: for every dispatch of a phone-bound tool (`book_spa_slot`,
`get_latest_appointment`, `delete_appointment`), every booking-store
procedure it invokes carries exactly the session customer phone, unchanged;
consequently two dispatches with the same session phone but different
argument maps (in particular different phone entries in the arguments) and
even different store responses pass the identical phone value. -/
theorem c6_session_phone (env₁ env₂ : Env) (name : String)
    (hname : name = "book_spa_slot" ∨ name = "get_latest_appointment"
      ∨ name = "delete_appointment")
    (args₁ args₂ : List (String × String)) (phone : Option String) :
    (∀ c ∈ (executeFunction env₁ (some name) args₁ phone).1, rpcPhone c = some phone) ∧
    (∀ c₁ ∈ (executeFunction env₁ (some name) args₁ phone).1,
     ∀ c₂ ∈ (executeFunction env₂ (some name) args₂ phone).1,
       rpcPhone c₁ = rpcPhone c₂) := by
  have key : ∀ (env : Env) (args : List (String × String)),
      ∀ c ∈ (executeFunction env (some name) args phone).1, rpcPhone c = some phone := by
    intro env args
    rcases hname with h | h | h <;> subst h
    · rw [executeFunction_book_calls]
      intro c hc
      simp only [List.mem_singleton] at hc
      subst hc
      rfl
    · rw [executeFunction_latest_calls]
      intro c hc
      simp only [List.mem_singleton] at hc
      subst hc
      rfl
    · exact executeFunction_delete_phone env args phone
  exact ⟨key env₁ args₁,
         fun c₁ h₁ c₂ h₂ => (key env₁ args₁ c₁ h₁).trans (key env₂ args₂ c₂ h₂).symm⟩

/-- Claim C6, witness: two `get_latest_appointment` dispatches whose argument
maps carry different phone entries still hit the store with the session
phone. -/
theorem c6_witness :
    rpcPhone (RpcCall.getLatestAppointment (some "+391110002222"))
      = some (some "+391110002222") ∧
    rpcPhone (RpcCall.getLatestAppointment (some "+391110002222"))
      = rpcPhone (RpcCall.getLatestAppointment (some "+391110002222")) :=
  ⟨(c6_session_phone envNone envNone "get_latest_appointment"
      (Or.inr (Or.inl rfl)) [("phone", "+15550000000")] [("phone", "+447700900000")]
      (some "+391110002222")).1
      (RpcCall.getLatestAppointment (some "+391110002222")) (by decide),
   (c6_session_phone envNone envNone "get_latest_appointment"
      (Or.inr (Or.inl rfl)) [("phone", "+15550000000")] [("phone", "+447700900000")]
      (some "+391110002222")).2
      (RpcCall.getLatestAppointment (some "+391110002222")) (by decide)
      (RpcCall.getLatestAppointment (some "+391110002222")) (by decide)⟩

/-- Modelled from the claim wording only (for comparison with the source
computation): the start time plus the session duration interpreted as a time
of day, i.e. with the hour reduced modulo 24. -/
def endTimeOfDay (sessionDurationHours h m : Nat) : String :=
  fmt2 ((h + sessionDurationHours) % 24) ++ ":" ++ fmt2 m ++ ":00"

/-- Claim C7, counterexample: for the valid `HH:MM` start time `23:00` (with
the default session duration 2), the source sends end time `25:00:00` —
`calculate_end_time` adds the duration to the hour without wrapping modulo 24
— whereas the start time plus 2 hours as a time of day is `01:00:00`. -/
theorem c7_counterexample :
    (executeFunction envNone (some "book_spa_slot")
        [("name", "Ada"), ("date", "2025-01-20"), ("start_time", "23:00")]
        (some "+391110002222")).1
      = [RpcCall.bookSpaSlot (some "Ada") (some "+391110002222") (some "2025-01-20")
          (some "23:00:00") "25:00:00"] ∧
    endTimeOfDay 2 23 0 = "01:00:00" ∧
    ("25:00:00" : String) ≠ endTimeOfDay 2 23 0 := by
  decide

/-- Claim C7, amended: for every `book_spa_slot` dispatch whose `start_time`
argument parses as `H:M`, the start time sent to the booking store is the
argument with `":00"` appended, and the end time sent is the hour plus
`SESSION_DURATION_HOURS` rendered directly (`%02d`), with no wrap modulo 24;
it therefore equals the start time plus the duration as a time of day exactly
when hour + duration < 24. -/
theorem c7_time_normalization (env : Env) (args : List (String × String))
    (phone : Option String) (s hs ms : String) (h m : Nat)
    (hget : argsGet args "start_time" = some s)
    (hlen : s.length = 5)
    (hsplit : pySplitColon s = [hs, ms])
    (hh : pyNat? hs = some h) (hm : pyNat? ms = some m) :
    (executeFunction env (some "book_spa_slot") args phone).1
      = [RpcCall.bookSpaSlot (argsGet args "name") phone (argsGet args "date")
          (some (s ++ ":00"))
          (fmt2 (h + env.sessionDurationHours) ++ ":" ++ fmt2 m ++ ":00")] ∧
    (h + env.sessionDurationHours < 24 →
      fmt2 (h + env.sessionDurationHours) ++ ":" ++ fmt2 m ++ ":00"
        = endTimeOfDay env.sessionDurationHours h m) := by
  constructor
  · rw [executeFunction_book_calls, hget]
    have hfmt : format_time_for_db (some s) = some (s ++ ":00") := by
      simp [format_time_for_db, hlen]
    have hcalc : calculate_end_time env.sessionDurationHours (some s)
        = fmt2 (h + env.sessionDurationHours) ++ ":" ++ fmt2 m ++ ":00" := by
      simp [calculate_end_time, hsplit, hh, hm]
    rw [hfmt, hcalc]
  · intro hlt
    simp [endTimeOfDay, Nat.mod_eq_of_lt hlt]

/-- Claim C7, witness for the amended theorem at start time `10:30`. -/
theorem c7_witness :
    (executeFunction envNone (some "book_spa_slot") [("start_time", "10:30")]
        (some "+391110002222")).1
      = [RpcCall.bookSpaSlot none (some "+391110002222") none
          (some ("10:30" ++ ":00"))
          (fmt2 (10 + envNone.sessionDurationHours) ++ ":" ++ fmt2 30 ++ ":00")] ∧
    fmt2 (10 + envNone.sessionDurationHours) ++ ":" ++ fmt2 30 ++ ":00"
      = endTimeOfDay envNone.sessionDurationHours 10 30 :=
  ⟨(c7_time_normalization envNone [("start_time", "10:30")] (some "+391110002222")
      "10:30" "10" "30" 10 30 (by decide) (by decide) (by decide) (by decide) (by decide)).1,
   (c7_time_normalization envNone [("start_time", "10:30")] (some "+391110002222")
      "10:30" "10" "30" 10 30 (by decide) (by decide) (by decide) (by decide) (by decide)).2
     (by decide)⟩

lemma string_length_append (a b : String) : (a ++ b).length = a.length + b.length := by
  cases a with
  | mk da =>
    cases b with
    | mk db => simp [String.length, String.append]

lemma unknown_result_error_truthy (name : String) :
    pyTruthyS (some ("Unknown function: " ++ name)) = true := by
  have h18 : ("Unknown function: " : String).length = 18 := rfl
  simp only [pyTruthyS, string_length_append, h18, bne_iff_ne, ne_eq]
  omega

/-- Claim C8, counterexample: the result returned for an unregistered tool
name is `{error: "Unknown function: <name>"}` — not the literal
`{error: "unknown function"}` the claim states (app.py line 875); no
booking-store procedure is invoked. -/
theorem c8_counterexample :
    (executeFunction envNone (some "pay_invoice") [] (some "+391110002222")).2.error
        = some "Unknown function: pay_invoice" ∧
    (executeFunction envNone (some "pay_invoice") [] (some "+391110002222")).2.error
        ≠ some "unknown function" ∧
    (executeFunction envNone (some "pay_invoice") [] (some "+391110002222")).1 = [] := by
  decide

/-- Claim C8, amended: for every AI function call whose name is not one of
the four registered tools, the dispatcher returns
`{error: "Unknown function: <name>"}` to the AI, followed by the usual
`response.create`; no booking-store procedure is invoked; and when the stream
identifier is known and the conversation entry exists, the invocation is
recorded with success = false. -/
theorem c8_unknown_function (env : Env) (s : AiState) (name : String)
    (callId : Option String) (args : List (String × String))
    (h1 : name ≠ "check_slot_availability") (h2 : name ≠ "book_spa_slot")
    (h3 : name ≠ "get_latest_appointment") (h4 : name ≠ "delete_appointment") :
    executeFunction env (some name) args s.customerPhone
        = ([], { error := some ("Unknown function: " ++ name) }) ∧
    fnCallSuccess (executeFunction env (some name) args s.customerPhone).2 = false ∧
    (aiStep env s (AiEvent.functionCallArgumentsDone (some name) callId (some args))).2
        = [AiOut.toAi (AiMsgOut.functionCallOutput callId
             { error := some ("Unknown function: " ++ name) }),
           AiOut.toAi AiMsgOut.responseCreate] ∧
    ∀ log, s.conv = some log → pyTruthyS s.streamSid = true →
      (aiStep env s (AiEvent.functionCallArgumentsDone (some name) callId (some args))).1.conv
        = some { log with functionCalls := log.functionCalls
            ++ [⟨some name, args, callId,
                 { error := some ("Unknown function: " ++ name) }, false⟩] } := by
  have hexec : executeFunction env (some name) args s.customerPhone
      = ([], { error := some ("Unknown function: " ++ name) }) := by
    simp [executeFunction, h1, h2, h3, h4, pyStrOpt]
  have hsucc : fnCallSuccess (executeFunction env (some name) args s.customerPhone).2
      = false := by
    rw [hexec]
    simp [fnCallSuccess, unknown_result_error_truthy]
  refine ⟨hexec, hsucc, ?_, ?_⟩
  · simp [aiStep, hexec]
  · intro log hlog hsid
    simp only [aiStep, hexec, hsid, if_true, addFunctionCall, hlog]
    rw [show fnCallSuccess ({ error := some ("Unknown function: " ++ name) } : FnResult)
          = false from by simp [fnCallSuccess, unknown_result_error_truthy]]

/-- Claim C8, witness for the amended theorem at the unregistered name
`pay_invoice` in a running session. -/
theorem c8_witness :
    executeFunction envNone (some "pay_invoice") [] runningState.customerPhone
        = ([], { error := some ("Unknown function: " ++ "pay_invoice") }) ∧
    fnCallSuccess
        (executeFunction envNone (some "pay_invoice") [] runningState.customerPhone).2
        = false ∧
    (aiStep envNone runningState
        (AiEvent.functionCallArgumentsDone (some "pay_invoice") (some "fc9") (some []))).1.conv
      = some { turnCounter := 0, turns := [],
               functionCalls := [⟨some "pay_invoice", [], some "fc9",
                 { error := some ("Unknown function: " ++ "pay_invoice") }, false⟩] } := by
  have h := c8_unknown_function envNone runningState "pay_invoice" (some "fc9") []
    (by decide) (by decide) (by decide) (by decide)
  refine ⟨h.1, h.2.1, ?_⟩
  have h4 := h.2.2.2 ⟨0, [], []⟩ rfl (by decide)
  simpa using h4

lemma convTurns_addFunctionCall (conv : Option ConvLog) (fc : FnCallRec) :
    convTurns (addFunctionCall conv fc) = convTurns conv := by
  cases conv <;> simp [addFunctionCall, convTurns]

/-- Claim C9: a transcription-completed or transcript-done frame whose
transcript field is absent or empty appends no turn and consumes no turn
number; and a turn is appended only when the frame carries a non-empty
transcript, the stream identifier is known (truthy), and the conversation
entry exists. -/
theorem c9_empty_transcript_no_turn (env : Env) (s : AiState) :
    (∀ (t : Option String) (eventId itemId : Option String), (t = none ∨ t = some "") →
      (aiStep env s (AiEvent.inputAudioTranscriptionCompleted t eventId itemId)).1.turnsOf
          = s.turnsOf ∧
      (aiStep env s (AiEvent.inputAudioTranscriptionCompleted t eventId itemId)).1.counterOf
          = s.counterOf ∧
      (aiStep env s (AiEvent.audioTranscriptDone t eventId itemId)).1.turnsOf = s.turnsOf ∧
      (aiStep env s (AiEvent.audioTranscriptDone t eventId itemId)).1.counterOf
          = s.counterOf) ∧
    (∀ e : AiEvent, (aiStep env s e).1.turnsOf ≠ s.turnsOf →
      e.hasNonemptyTranscript = true ∧ pyTruthyS s.streamSid = true ∧
      s.conv.isSome = true) := by
  constructor
  · intro t eventId itemId ht
    have htd : t.getD "" = "" := by rcases ht with rfl | rfl <;> rfl
    refine ⟨?_, ?_, ?_, ?_⟩ <;>
      simp [aiStep, htd, AiState.turnsOf, AiState.counterOf]
  · intro e he
    cases e with
    | inputAudioTranscriptionCompleted t eventId itemId =>
      by_cases hcond : ((t.getD "").length != 0 && pyTruthyS s.streamSid) = true
      · have hparts := Bool.and_eq_true_iff.mp hcond
        cases hconv : s.conv with
        | none =>
          simp [aiStep, hcond, hconv, addTurn, AiState.turnsOf, convTurns] at he
        | some log =>
          exact ⟨by simp [AiEvent.hasNonemptyTranscript, hparts.1],
                 hparts.2, by simp [hconv]⟩
      · simp [aiStep, hcond, AiState.turnsOf] at he
    | audioTranscriptDelta d =>
      simp [aiStep, AiState.turnsOf] at he
    | audioTranscriptDone t eventId itemId =>
      by_cases hcond : ((t.getD "").length != 0 && pyTruthyS s.streamSid) = true
      · have hparts := Bool.and_eq_true_iff.mp hcond
        cases hconv : s.conv with
        | none =>
          simp [aiStep, hcond, hconv, addTurn, AiState.turnsOf, convTurns] at he
        | some log =>
          exact ⟨by simp [AiEvent.hasNonemptyTranscript, hparts.1],
                 hparts.2, by simp [hconv]⟩
      · simp [aiStep, hcond, AiState.turnsOf] at he
    | audioDelta d =>
      by_cases hcond : (pyTruthyS s.streamSid && pyTruthyS d) = true
      · simp [aiStep, hcond, AiState.turnsOf] at he
      · simp [aiStep, hcond, AiState.turnsOf] at he
    | functionCallArgumentsDone name callId arguments =>
      cases arguments with
      | none => simp [aiStep, AiState.turnsOf] at he
      | some args =>
        simp [aiStep, AiState.turnsOf, convTurns_addFunctionCall,
          apply_ite convTurns] at he
    | malformed => simp [aiStep, AiState.turnsOf] at he
    | other => simp [aiStep, AiState.turnsOf] at he

/-- Claim C9, witness: an empty and an absent transcript append nothing in a
running session, and a turn appended by a non-empty transcript certifies the
non-emptiness, the known stream identifier and the conversation entry. -/
theorem c9_witness :
    (aiStep envNone runningState
        (AiEvent.inputAudioTranscriptionCompleted none none none)).1.turnsOf
      = runningState.turnsOf ∧
    (aiStep envNone runningState
        (AiEvent.audioTranscriptDone (some "") none none)).1.counterOf
      = runningState.counterOf ∧
    AiEvent.hasNonemptyTranscript
        (AiEvent.inputAudioTranscriptionCompleted (some "ciao") none none) = true ∧
    pyTruthyS runningState.streamSid = true ∧
    runningState.conv.isSome = true := by
  refine ⟨((c9_empty_transcript_no_turn envNone runningState).1 none none none
      (Or.inl rfl)).1,
    ((c9_empty_transcript_no_turn envNone runningState).1 (some "") none none
      (Or.inr rfl)).2.2.2, ?_, ?_, ?_⟩
  · exact ((c9_empty_transcript_no_turn envNone runningState).2
      (AiEvent.inputAudioTranscriptionCompleted (some "ciao") none none) (by decide)).1
  · exact ((c9_empty_transcript_no_turn envNone runningState).2
      (AiEvent.inputAudioTranscriptionCompleted (some "ciao") none none) (by decide)).2.1
  · exact ((c9_empty_transcript_no_turn envNone runningState).2
      (AiEvent.inputAudioTranscriptionCompleted (some "ciao") none none) (by decide)).2.2

/-- Claim C10: a `delete_appointment` dispatch without a (truthy)
`booking_reference` argument whose `get_latest_appointment` lookup does not
return a success status yields
`{success: false, message: "No booking found to cancel"}` and invokes no
further booking-store procedure — in particular the `delete_appointment`
procedure is never called, so no store mutation occurs on this path. -/
theorem c10_delete_no_ref_failure (env : Env) (args : List (String × String))
    (phone : Option String)
    (hnoref : pyTruthyS (argsGet args "booking_reference") = false)
    (hfail : ∀ d, env.rpc (RpcCall.getLatestAppointment phone) = some d →
      ¬ d.status = some "success") :
    executeFunction env (some "delete_appointment") args phone
      = ([RpcCall.getLatestAppointment phone],
         { success := some false, message := some "No booking found to cancel" }) := by
  cases henv : env.rpc (RpcCall.getLatestAppointment phone) with
  | none => simp [executeFunction, hnoref, henv]
  | some d => simp [executeFunction, hnoref, henv, hfail d henv]

/-- Claim C10, witness at a store with no bookings. -/
theorem c10_witness :
    executeFunction envNone (some "delete_appointment") [] (some "+391110002222")
      = ([RpcCall.getLatestAppointment (some "+391110002222")],
         { success := some false, message := some "No booking found to cancel" }) :=
  c10_delete_no_ref_failure envNone [] (some "+391110002222") (by decide)
    (fun d h => by simp [envNone] at h)

end SpaBooking
